import Mathlib

/-!
Verification of the `yt_idefix` frontend plugin (format validators, metadata
parsing, hierarchy construction, companion-config validation and particle
reads) against its specification, via a shallow embedding of the Python
source in `yt_idefix/data_structures.py` and `yt_idefix/io.py`.
-/

namespace YtIdefix

/-- Python exception kinds raised by the embedded code paths. -/
inductive PyErr where
  | keyError (k : String)
  | indexError
  | typeError
deriving DecidableEq, Repr

/-- ASCII decimal digit `0`-`9`: the digits of the claim's
`dump.0000.dmp` through `dump.9999.dmp` range, and the `\d` class of the
version regex as exercised on the ASCII header text. -/
def isAsciiDigit (c : Char) : Bool := '0' ≤ c && c ≤ '9'

/-- ASCII word character, the `\w` class of the version regex. -/
def isWordChar (c : Char) : Bool :=
  isAsciiDigit c || ('a' ≤ c && c ≤ 'z') || ('A' ≤ c && c ≤ 'Z') || c = '_'

/-- `str.lower` on one ASCII character, as used by
`IdefixDmpDataset._is_valid` (`dmp_io.read_header(fn).lower()`). -/
def asciiLower (c : Char) : Char :=
  if 'A' ≤ c && c ≤ 'Z' then Char.ofNat (c.toNat + 32) else c

/-- `needle` occurs at the start of `hay` (list-of-characters form). -/
def leadsWith : List Char → List Char → Bool
  | [], _ => true
  | _ :: _, [] => false
  | a :: as, b :: bs => a = b && leadsWith as bs

/-- Python's substring test `needle in hay`. -/
def containsSub (needle : List Char) : List Char → Bool
  | [] => leadsWith needle []
  | c :: rest => leadsWith needle (c :: rest) || containsSub needle rest

/-- The marker `"Idefix"` looked up (case-sensitively) by
`IdefixVtkDataset._is_valid`. -/
def idefixMarkerU : List Char := ['I', 'd', 'e', 'f', 'i', 'x']

/-- The marker `"idefix"` looked up by `IdefixDmpDataset._is_valid` in the
lower-cased header. -/
def idefixMarkerL : List Char := ['i', 'd', 'e', 'f', 'i', 'x']

/-- Modelled from the spec: `dmp_io.read_header` / `vtk_io.read_header` are
external collaborators (module `yt_idefix/_io`, not part of the shown
sources) that read the leading text header of a candidate file. A probe
input therefore carries the basename of the candidate path together with
the outcome of attempting to read its header: `none` when the read raises
any exception, `some h` when it returns header text `h`. -/
structure ProbeFile where
  basename : List Char
  header : Option (List Char)

/-- The code points matched by `\d` in a Python `str` pattern (the Unicode
decimal digits, category Nd), as inclusive ranges. -/
def pyDigitRanges : List (Nat × Nat) :=
  [(48, 57), (1632, 1641), (1776, 1785), (1984, 1993), (2406, 2415),
   (2534, 2543), (2662, 2671), (2790, 2799), (2918, 2927), (3046, 3055),
   (3174, 3183), (3302, 3311), (3430, 3439), (3558, 3567), (3664, 3673),
   (3792, 3801), (3872, 3881), (4160, 4169), (4240, 4249), (6112, 6121),
   (6160, 6169), (6470, 6479), (6608, 6617), (6784, 6793), (6800, 6809),
   (6992, 7001), (7088, 7097), (7232, 7241), (7248, 7257), (42528, 42537),
   (43216, 43225), (43264, 43273), (43472, 43481), (43504, 43513),
   (43600, 43609), (44016, 44025), (65296, 65305), (66720, 66729),
   (68912, 68921), (69734, 69743), (69872, 69881), (69942, 69951),
   (70096, 70105), (70384, 70393), (70736, 70745), (70864, 70873),
   (71248, 71257), (71360, 71369), (71472, 71481), (71904, 71913),
   (72016, 72025), (72784, 72793), (73040, 73049), (73120, 73129),
   (92768, 92777), (92864, 92873), (93008, 93017), (120782, 120831),
   (123200, 123209), (123632, 123641), (125264, 125273), (130032, 130041)]

/-- Python's `\d` class for `str` patterns: any Unicode decimal digit, not
only the ASCII digits. -/
def isPyDigit (c : Char) : Bool :=
  pyDigitRanges.any (fun p => p.1 ≤ c.toNat && c.toNat ≤ p.2)

/-- Python's `$` anchor: it matches at the end of the string, or just
before a newline that ends the string. So after the body of the pattern
is consumed, the remaining characters must be `""` or `"\n"`. -/
def dollarAnchor (rest : List Char) : Bool :=
  rest == [] || rest == ['\n']

lemma dollarAnchor_iff (rest : List Char) :
    dollarAnchor rest = true ↔ rest = [] ∨ rest = ['\n'] := by
  simp [dollarAnchor, Bool.or_eq_true, beq_iff_eq]

/-- The filename test of `IdefixDmpDataset._is_valid`:
`re.match(r"^(dump)\.\d{4}(\.dmp)$", os.path.basename(fn))`, with
Python's `re` semantics: `\d` is the Unicode decimal-digit class and `$`
also matches just before one trailing newline. -/
def matchesDmpBasename : List Char → Bool
  | 'd' :: 'u' :: 'm' :: 'p' :: '.' :: a :: b :: c :: d :: '.' :: 'd' :: 'm' :: 'p' :: rest =>
      isPyDigit a && isPyDigit b && isPyDigit c && isPyDigit d && dollarAnchor rest
  | _ => false

/-- The claim's description of the accepted filename shape: literally
`dump.` followed by four decimal digits followed by `.dmp`
(`dump.0000.dmp` through `dump.9999.dmp`). Written from the spec's words,
to be compared with `matchesDmpBasename` (the code's regex). -/
def specDmpPattern (name : List Char) : Prop :=
  ∃ ds : List Char, ds.length = 4 ∧ ds.all isAsciiDigit = true ∧
    name = ['d', 'u', 'm', 'p', '.'] ++ ds ++ ['.', 'd', 'm', 'p']

/-- The amended description of the accepted basenames: `dump.` followed by
four characters of Python's `\d` class (any Unicode decimal digits)
followed by `.dmp`, optionally followed by one trailing newline (which
Python's `$` anchor tolerates). -/
def specDmpPatternAmended (name : List Char) : Prop :=
  ∃ ds nl : List Char, ds.length = 4 ∧ ds.all isPyDigit = true ∧
    (nl = [] ∨ nl = ['\n']) ∧
    name = ['d', 'u', 'm', 'p', '.'] ++ ds ++ ['.', 'd', 'm', 'p'] ++ nl

/-- `IdefixDmpDataset._is_valid`: the regex test on the basename, and-ed
with `"idefix" in dmp_io.read_header(fn).lower()`; the header read is
wrapped in `try/except Exception`, which resets the flag to `False`.
The result is `Except` so that an uncaught exception would be visible as
`.error`; the source catches the only raising operation, so every branch
produces `.ok`. -/
def dmpIsValid (f : ProbeFile) : Except PyErr Bool :=
  let ok := matchesDmpBasename f.basename
  match f.header with
  | none => .ok false
  | some h => .ok (ok && containsSub idefixMarkerL (h.map asciiLower))

/-- `IdefixVtkDataset._is_valid`: `"Idefix" in vtk_io.read_header(fn)`,
with the read wrapped in `try/except Exception` returning `False`. -/
def vtkIsValid (f : ProbeFile) : Except PyErr Bool :=
  match f.header with
  | none => .ok false
  | some h => .ok (containsSub idefixMarkerU h)

lemma leadsWith_map (f : Char → Char) :
    ∀ n h : List Char, leadsWith n h = true → leadsWith (n.map f) (h.map f) = true := by
  intro n
  induction n with
  | nil => intro h _; simp [leadsWith, List.map]
  | cons a as ih =>
    intro h hp
    cases h with
    | nil => simp [leadsWith] at hp
    | cons b bs =>
      simp only [leadsWith, Bool.and_eq_true, decide_eq_true_eq] at hp
      simp only [List.map, leadsWith, Bool.and_eq_true, decide_eq_true_eq]
      exact ⟨by rw [hp.1], ih bs hp.2⟩

lemma containsSub_map (f : Char → Char) (n : List Char) :
    ∀ h : List Char, containsSub n h = true → containsSub (n.map f) (h.map f) = true := by
  intro h
  induction h with
  | nil =>
    intro hc
    simpa [containsSub] using leadsWith_map f n [] (by simpa [containsSub] using hc)
  | cons c rest ih =>
    intro hc
    simp only [containsSub, Bool.or_eq_true] at hc
    rcases hc with hc | hc
    · simp only [List.map, containsSub, Bool.or_eq_true]
      exact Or.inl (leadsWith_map f n (c :: rest) hc)
    · simp only [List.map, containsSub, Bool.or_eq_true]
      exact Or.inr (ih hc)

lemma matchesDmpBasename_iff (name : List Char) :
    matchesDmpBasename name = true ↔ specDmpPatternAmended name := by
  constructor
  · intro h
    unfold matchesDmpBasename at h
    split at h
    · next a b c d rest =>
      simp only [Bool.and_eq_true] at h
      refine ⟨[a, b, c, d], rest, rfl, ?_, (dollarAnchor_iff rest).mp h.2, rfl⟩
      simp only [List.all_cons, List.all_nil, Bool.and_true]
      simp only [Bool.and_eq_true]
      exact ⟨h.1.1.1.1, h.1.1.1.2, h.1.1.2, h.1.2⟩
    · exact absurd h (by simp)
  · rintro ⟨ds, nl, h4, hall, hnl, rfl⟩
    match ds, h4 with
    | [a, b, c, d], _ =>
      simp only [List.all_cons, List.all_nil, Bool.and_true, Bool.and_eq_true] at hall
      simp only [List.cons_append, List.nil_append, List.append_assoc]
      show (isPyDigit a && isPyDigit b && isPyDigit c && isPyDigit d && dollarAnchor nl) = true
      simp [hall.1, hall.2.1, hall.2.2.1, hall.2.2.2, (dollarAnchor_iff nl).mpr hnl]

lemma idefixMarkerU_lower : idefixMarkerU.map asciiLower = idefixMarkerL := by decide

/-- A well-formed probe: basename `dump.0000.dmp`, header `"Idefix v1.0"`. -/
def probeGood : ProbeFile :=
  { basename := ['d', 'u', 'm', 'p', '.', '0', '0', '0', '0', '.', 'd', 'm', 'p'],
    header := some ['I', 'd', 'e', 'f', 'i', 'x', ' ', 'v', '1', '.', '0'] }

/-- A probe whose basename (`dump.123.dmp`, only three digits) does not
match the required pattern although its header contains the marker. -/
def probeBadName : ProbeFile :=
  { basename := ['d', 'u', 'm', 'p', '.', '1', '2', '3', '.', 'd', 'm', 'p'],
    header := some ['I', 'd', 'e', 'f', 'i', 'x', ' ', 'v', '1', '.', '0'] }

/-- A probe whose basename is `dump.0000.dmp` followed by one trailing
newline character: a legal file name that is outside the claim's
`dump.0000.dmp` ... `dump.9999.dmp` range, yet is accepted by the source
regex because Python's `$` also matches before a trailing newline. -/
def probeTrailingNewline : ProbeFile :=
  { basename := ['d', 'u', 'm', 'p', '.', '0', '0', '0', '0', '.', 'd', 'm', 'p', '\n'],
    header := some ['I', 'd', 'e', 'f', 'i', 'x', ' ', 'v', '1', '.', '0'] }

/-- A probe whose basename spells the four digits with the Arabic-Indic
digits U+0660..U+0663, which Python's `\d` accepts. -/
def probeUnicodeDigits : ProbeFile :=
  { basename := ['d', 'u', 'm', 'p', '.', '٠', '١', '٢', '٣', '.', 'd', 'm', 'p'],
    header := some ['I', 'd', 'e', 'f', 'i', 'x', ' ', 'v', '1', '.', '0'] }

/-- C1 counterexample: the basenames `"dump.0000.dmp\n"` (trailing
newline) and `"dump.٠١٢٣.dmp"` (Arabic-Indic digits) are not of the
claimed form `dump.NNNN.dmp` with four decimal digits `0`-`9`, yet
`IdefixDmpDataset._is_valid` returns true on both when the header
contains the marker: Python's `$` matches before one trailing newline and
`\d` accepts any Unicode decimal digit, so the claim's "false for every
other basename" direction fails on the code. -/
theorem dmp_pattern_claim_counterexample :
    (¬ specDmpPattern probeTrailingNewline.basename)
    ∧ dmpIsValid probeTrailingNewline = .ok true
    ∧ (¬ specDmpPattern probeUnicodeDigits.basename)
    ∧ dmpIsValid probeUnicodeDigits = .ok true := by
  refine ⟨?_, rfl, ?_, rfl⟩
  · rintro ⟨ds, h4, -, heq⟩
    have hlen := congrArg List.length heq
    simp [probeTrailingNewline, h4] at hlen
  · rintro ⟨ds, h4, hall, heq⟩
    match ds, h4 with
    | [a, b, c, d], _ =>
      have hds : (['٠', '١', '٢', '٣'] : List Char) = [a, b, c, d] :=
        calc (['٠', '١', '٢', '٣'] : List Char)
            = (probeUnicodeDigits.basename.drop 5).take 4 := rfl
          _ = (((['d', 'u', 'm', 'p', '.'] ++ [a, b, c, d]
                ++ ['.', 'd', 'm', 'p']).drop 5).take 4) := by rw [← heq]
          _ = [a, b, c, d] := rfl
      rw [← hds] at hall
      exact absurd hall (by decide)

/-- C1 (amended): for every file whose basename is `dump.` followed by
four characters of Python's `\d` class (any Unicode decimal digits) and
`.dmp`, optionally followed by one trailing newline, and whose header
reads successfully and contains the marker `"Idefix"`,
`IdefixDmpDataset._is_valid` returns true; for every file whose basename
is not of that form, it returns false regardless of the header. -/
theorem dmp_is_valid_amended (f : ProbeFile) :
    (specDmpPatternAmended f.basename →
      ∀ h, f.header = some h → containsSub idefixMarkerU h = true →
        dmpIsValid f = .ok true)
    ∧ (¬ specDmpPatternAmended f.basename → dmpIsValid f = .ok false) := by
  constructor
  · intro hpat h hh hmark
    have hname : matchesDmpBasename f.basename = true :=
      (matchesDmpBasename_iff f.basename).mpr hpat
    have hlow : containsSub idefixMarkerL (h.map asciiLower) = true := by
      have := containsSub_map asciiLower idefixMarkerU h hmark
      rwa [idefixMarkerU_lower] at this
    simp [dmpIsValid, hh, hname, hlow]
  · intro hpat
    have hname : matchesDmpBasename f.basename = false := by
      cases hm : matchesDmpBasename f.basename
      · rfl
      · exact absurd ((matchesDmpBasename_iff f.basename).mp hm) hpat
    cases hh : f.header with
    | none => simp [dmpIsValid, hh]
    | some h => simp [dmpIsValid, hh, hname]

theorem dmp_is_valid_amended_witness :
    dmpIsValid probeGood = .ok true ∧ dmpIsValid probeBadName = .ok false := by
  constructor
  · exact (dmp_is_valid_amended probeGood).1
      ⟨['0', '0', '0', '0'], [], rfl, by decide, Or.inl rfl, rfl⟩
      ['I', 'd', 'e', 'f', 'i', 'x', ' ', 'v', '1', '.', '0'] rfl (by decide)
  · exact (dmp_is_valid_amended probeBadName).2
      (fun hs => absurd ((matchesDmpBasename_iff probeBadName.basename).mpr hs) (by decide))

/-- C2: neither validator ever raises: both are total and produce `.ok`,
and whenever the header read fails (modelled as `header = none`, the
`try/except Exception` branch) the validator returns false instead of
propagating the error. -/
theorem validators_never_raise (f g : ProbeFile) :
    (∃ b, dmpIsValid f = .ok b) ∧ (∃ b, vtkIsValid g = .ok b)
    ∧ (f.header = none → dmpIsValid f = .ok false)
    ∧ (g.header = none → vtkIsValid g = .ok false) := by
  refine ⟨?_, ?_, ?_, ?_⟩
  · cases hh : f.header with
    | none => exact ⟨false, by simp [dmpIsValid, hh]⟩
    | some h =>
      exact ⟨matchesDmpBasename f.basename && containsSub idefixMarkerL (h.map asciiLower),
        by simp [dmpIsValid, hh]⟩
  · cases hh : g.header with
    | none => exact ⟨false, by simp [vtkIsValid, hh]⟩
    | some h => exact ⟨containsSub idefixMarkerU h, by simp [vtkIsValid, hh]⟩
  · intro hh; simp [dmpIsValid, hh]
  · intro hh; simp [vtkIsValid, hh]

/-- A probe whose header read raises (e.g. a foreign or truncated file). -/
def probeUnreadable : ProbeFile :=
  { basename := ['d', 'u', 'm', 'p', '.', '0', '0', '0', '0', '.', 'd', 'm', 'p'],
    header := none }

theorem validators_never_raise_witness :
    dmpIsValid probeUnreadable = .ok false ∧ vtkIsValid probeUnreadable = .ok false :=
  ⟨(validators_never_raise probeUnreadable probeUnreadable).2.2.1 rfl,
   (validators_never_raise probeUnreadable probeUnreadable).2.2.2 rfl⟩

/-- The geometry table of `IdefixDataset._parse_parameter_file`, verbatim:
`enum_geoms = {1: "cartesian", 2: "cylindrial", 3: "polar", 4: "spherical"}`
(the source spells code 2 as `"cylindrial"`). A Python dict lookup on a
missing key raises `KeyError`, hence the `Option`. -/
def enum_geoms (code : Int) : Option String :=
  if code = 1 then some "cartesian"
  else if code = 2 then some "cylindrial"
  else if code = 3 then some "polar"
  else if code = 4 then some "spherical"
  else none

/-- `self.geometry = enum_geoms[fdata["geometry"]]`: a missing code raises
`KeyError`, aborting `_parse_parameter_file`. -/
def parseGeometry (code : Int) : Except PyErr String :=
  match enum_geoms code with
  | some g => .ok g
  | none => .error (.keyError (toString code))

/-- C3: evaluation of the geometry lookup at every code. Codes 1, 3, 4 map
to `"cartesian"`, `"polar"`, `"spherical"` and any unrecognized code (e.g.
5) raises a lookup error, as claimed; but code 2 maps to the misspelled
string `"cylindrial"`, not `"cylindrical"` as the claim states. -/
theorem enum_geoms_eval :
    parseGeometry 1 = .ok "cartesian"
    ∧ parseGeometry 2 = .ok "cylindrial"
    ∧ parseGeometry 3 = .ok "polar"
    ∧ parseGeometry 4 = .ok "spherical"
    ∧ parseGeometry 5 = .error (.keyError "5")
    ∧ (∀ c : Int, (c = 1 ∨ c = 2 ∨ c = 3 ∨ c = 4) ∨ parseGeometry c = .error (.keyError (toString c)))
    ∧ "cylindrial" ≠ "cylindrical" := by
  refine ⟨rfl, rfl, rfl, rfl, rfl, ?_, by decide⟩
  intro c
  by_cases h1 : c = 1
  · exact Or.inl (Or.inl h1)
  by_cases h2 : c = 2
  · exact Or.inl (Or.inr (Or.inl h2))
  by_cases h3 : c = 3
  · exact Or.inl (Or.inr (Or.inr (Or.inl h3)))
  by_cases h4 : c = 4
  · exact Or.inl (Or.inr (Or.inr (Or.inr h4)))
  exact Or.inr (by simp [parseGeometry, enum_geoms, h1, h2, h3, h4])

/-- The `[-\w+]` class of `_IDEFIX_VERSION_REGEXP`: word characters,
hyphen and plus. -/
def isVersionTailChar (c : Char) : Bool := isWordChar c || c = '-' || c = '+'

/-- Greedy match of `_IDEFIX_VERSION_REGEXP = v\d+\.\d+\.?\d*[-\w+]*`
anchored at the start of `l`; returns the matched token. Every
sub-pattern after `v\d+\.\d+` can match the empty string, so the greedy
interpretation needs no backtracking. -/
def matchVersionAt (l : List Char) : Option (List Char) :=
  match l with
  | 'v' :: rest =>
    let d1 := rest.takeWhile isAsciiDigit
    let r1 := rest.dropWhile isAsciiDigit
    if d1.isEmpty then none
    else
      match r1 with
      | '.' :: r2 =>
        let d2 := r2.takeWhile isAsciiDigit
        let r3 := r2.dropWhile isAsciiDigit
        if d2.isEmpty then none
        else
          match r3 with
          | '.' :: r4 =>
            let d3 := r4.takeWhile isAsciiDigit
            let r5 := r4.dropWhile isAsciiDigit
            some ('v' :: d1 ++ '.' :: d2 ++ '.' :: d3 ++ r5.takeWhile isVersionTailChar)
          | _ =>
            some ('v' :: d1 ++ '.' :: d2 ++ r3.takeWhile isVersionTailChar)
      | _ => none
  | _ => none

/-- `re.search` with `_IDEFIX_VERSION_REGEXP`: the leftmost position where
the pattern matches wins. -/
def searchVersion : List Char → Option (List Char)
  | [] => none
  | c :: rest =>
    match matchVersionAt (c :: rest) with
    | some m => some m
    | none => searchVersion rest

/-- `IdefixDmpDataset._get_idefix_version`: search the header for the
version token; on failure warn and return `"unknown"`. The boolean records
whether the warning was emitted. -/
def getIdefixVersion (header : List Char) : String × Bool :=
  match searchVersion header with
  | none => ("unknown", true)
  | some m => (⟨m⟩, false)

/-- C4 counterexample: the claim's example header `"Idefix 1.2.3-dev build"`
contains no token matching `v\d+\.\d+\.?\d*[-\w+]*` (the regex requires a
literal leading `v`), so the extractor warns and returns `"unknown"`, not
`"1.2.3-dev"`. -/
theorem version_claim_counterexample :
    (getIdefixVersion ("Idefix 1.2.3-dev build").data).1 ≠ "1.2.3-dev"
    ∧ getIdefixVersion ("Idefix 1.2.3-dev build").data = ("unknown", true) := by
  constructor
  · decide
  · decide

/-- C4 (amended): version extraction scans the header for a token matching
`v<major>.<minor>[.<patch>][-suffix]` including the leading `v`: header
`"Idefix v1.2.3-dev build"` yields `"v1.2.3-dev"` with no warning, and any
header in which the scan finds no matching token (e.g.
`"Idefix unknown build"`) yields the sentinel `"unknown"` together with a
warning instead of failing. -/
theorem version_extraction_amended (header : List Char) :
    getIdefixVersion ("Idefix v1.2.3-dev build").data = ("v1.2.3-dev", false)
    ∧ (searchVersion header = none → getIdefixVersion header = ("unknown", true))
    ∧ (∀ m, searchVersion header = some m → getIdefixVersion header = (⟨m⟩, false)) := by
  refine ⟨by decide, ?_, ?_⟩
  · intro h; simp [getIdefixVersion, h]
  · intro m h; simp [getIdefixVersion, h]

theorem version_extraction_amended_witness :
    getIdefixVersion ("Idefix unknown build").data = ("unknown", true) :=
  (version_extraction_amended ("Idefix unknown build").data).2.1 (by decide)

/-- Modelled from the spec: an entry of the field-properties mapping
returned by the external reader (`dmp_io.read_idefix_dmpfile`, module
`yt_idefix/_io`, not part of the shown sources). Its last component,
`fprops[k][-1]`, is the array of per-axis extents of the field; only that
component is consumed by `_parse_parameter_file`. -/
structure FieldProp where
  shape : List Int

/-- `self.domain_dimensions = np.concatenate([fprops[k][-1] for k in axes])`
with `axes = ("x1", "x2", "x3")`. -/
def domainDimensions (fp : String → FieldProp) : List Int :=
  (fp "x1").shape ++ (fp "x2").shape ++ (fp "x3").shape

/-- `self.dimensionality = np.count_nonzero(self.domain_dimensions - 1)`. -/
def dimensionality (dims : List Int) : Nat :=
  dims.countP (fun d => decide (d - 1 ≠ 0))

/-- C5: `domain_dimensions` is the concatenation of the last-axis extents
of the three axis-keyed field-shape entries, and `dimensionality` counts
the axes whose extent exceeds 1 (extents being at least 1); in particular
`dimensionality [64, 1, 1] = 1`, `dimensionality [64, 64, 1] = 2` and
`dimensionality [64, 64, 64] = 3`. -/
theorem domain_dimensions_spec (fp : String → FieldProp) (n1 n2 n3 : Int)
    (h1 : (fp "x1").shape = [n1]) (h2 : (fp "x2").shape = [n2])
    (h3 : (fp "x3").shape = [n3])
    (hp1 : 1 ≤ n1) (hp2 : 1 ≤ n2) (hp3 : 1 ≤ n3) :
    domainDimensions fp = [n1, n2, n3]
    ∧ dimensionality (domainDimensions fp) = ([n1, n2, n3].countP (fun d => decide (1 < d)))
    ∧ dimensionality [64, 1, 1] = 1
    ∧ dimensionality [64, 64, 1] = 2
    ∧ dimensionality [64, 64, 64] = 3 := by
  have hdd : domainDimensions fp = [n1, n2, n3] := by
    simp [domainDimensions, h1, h2, h3]
  refine ⟨hdd, ?_, by decide, by decide, by decide⟩
  rw [hdd]
  have e1 : (decide (n1 - 1 ≠ 0)) = (decide (1 < n1)) := by
    rw [decide_eq_decide]; omega
  have e2 : (decide (n2 - 1 ≠ 0)) = (decide (1 < n2)) := by
    rw [decide_eq_decide]; omega
  have e3 : (decide (n3 - 1 ≠ 0)) = (decide (1 < n3)) := by
    rw [decide_eq_decide]; omega
  simp only [dimensionality, List.countP_cons, List.countP_nil]
  rw [e1, e2, e3]

/-- Field properties of a 64 x 64 x 1 grid. -/
def exampleFieldProps : String → FieldProp
  | "x1" => ⟨[64]⟩
  | "x2" => ⟨[64]⟩
  | _ => ⟨[1]⟩

theorem domain_dimensions_spec_witness :
    domainDimensions exampleFieldProps = [64, 64, 1]
    ∧ dimensionality (domainDimensions exampleFieldProps)
        = ([(64 : Int), 64, 1].countP (fun d => decide (1 < d)))
    ∧ dimensionality [64, 1, 1] = 1
    ∧ dimensionality [64, 64, 1] = 2
    ∧ dimensionality [64, 64, 64] = 3 :=
  domain_dimensions_spec exampleFieldProps 64 64 1 rfl rfl rfl
    (by decide) (by decide) (by decide)

/-- Modelled from the spec: the scalar-metadata record returned by the
external reader (`yt_idefix/_io`, not part of the shown sources) carries
one left-edge and one right-edge coordinate array per axis
(`fdata["xl1"]`, ..., `fdata["xr3"]`). The edge coordinates are float64 on
disk; the claims at issue concern only which entries are selected, so the
carrier is an arbitrary type `α`. -/
structure EdgeMetadata (α : Type) where
  xl1 : List α
  xl2 : List α
  xl3 : List α
  xr1 : List α
  xr2 : List α
  xr3 : List α

/-- `self.domain_left_edge = np.array([fdata[f"xl{idir}"][0] for idir in "123"])`;
Python indexing `[0]` raises `IndexError` on an empty array, hence `Option`. -/
def domainLeftEdge {α : Type} (m : EdgeMetadata α) : Option (List α) := do
  let a ← m.xl1.head?
  let b ← m.xl2.head?
  let c ← m.xl3.head?
  pure [a, b, c]

/-- `self.domain_right_edge = np.array([fdata[f"xr{idir}"][-1] for idir in "123"])`. -/
def domainRightEdge {α : Type} (m : EdgeMetadata α) : Option (List α) := do
  let a ← m.xr1.getLast?
  let b ← m.xr2.getLast?
  let c ← m.xr3.getLast?
  pure [a, b, c]

/-- C6: the domain left edge is the first entry of each axis's left-edge
array and the domain right edge is the last entry of each axis's
right-edge array; the hypotheses constrain only the first/last entries, so
interior entries of multi-block edge arrays cannot influence the result. -/
theorem domain_edges_spec {α : Type} (m : EdgeMetadata α) (a b c d e f : α)
    (h1 : m.xl1.head? = some a) (h2 : m.xl2.head? = some b)
    (h3 : m.xl3.head? = some c)
    (h4 : m.xr1.getLast? = some d) (h5 : m.xr2.getLast? = some e)
    (h6 : m.xr3.getLast? = some f) :
    domainLeftEdge m = some [a, b, c] ∧ domainRightEdge m = some [d, e, f] := by
  constructor
  · simp [domainLeftEdge, h1, h2, h3]
  · simp [domainRightEdge, h4, h5, h6]

/-- Multi-block edge arrays: interior entries (99, 98, ...) differ from the
outer ones; only first (left) / last (right) entries should be read. -/
def exampleEdges : EdgeMetadata Int :=
  { xl1 := [0, 99, 98], xl2 := [10, 97, 96], xl3 := [20, 95, 94],
    xr1 := [93, 92, 1], xr2 := [91, 90, 11], xr3 := [89, 88, 21] }

theorem domain_edges_spec_witness :
    domainLeftEdge exampleEdges = some [0, 10, 20]
    ∧ domainRightEdge exampleEdges = some [1, 11, 21] :=
  domain_edges_spec exampleEdges 0 10 20 1 11 21 rfl rfl rfl rfl rfl rfl

/-- The dataset attributes consumed by `IdefixHierarchy._parse_index`. -/
structure DatasetShape (α : Type) where
  domain_left_edge : List α
  domain_right_edge : List α
  domain_dimensions : List Int

/-- The hierarchy state written by `IdefixHierarchy._count_grids` and
`IdefixHierarchy._parse_index`: per-grid arrays (one row per grid) and the
maximum refinement level. -/
structure HierarchyShape (α : Type) where
  num_grids : Nat
  grid_left_edge : List (List α)
  grid_right_edge : List (List α)
  grid_dimensions : List (List Int)
  grid_particle_count : List Nat
  grid_levels : List Nat
  max_level : Nat

/-- `IdefixHierarchy._count_grids`: `self.num_grids = 1`. -/
def countGrids : Nat := 1

/-- `IdefixHierarchy._parse_index`: row 0 of each per-grid array is filled
from the dataset's already-parsed domain metadata; particle count 0,
level 1, `max_level = 1`. -/
def parseIndex {α : Type} (ds : DatasetShape α) : HierarchyShape α :=
  { num_grids := countGrids
    grid_left_edge := [ds.domain_left_edge]
    grid_right_edge := [ds.domain_right_edge]
    grid_dimensions := [ds.domain_dimensions]
    grid_particle_count := [0]
    grid_levels := [1]
    max_level := 1 }

/-- C7: for every dataset the hierarchy holds exactly one grid, whose
edges and dimensions are the dataset's parsed domain edges and dimensions,
with level 1, particle count 0 and `max_level = 1`. -/
theorem single_grid_hierarchy {α : Type} (ds : DatasetShape α) :
    (parseIndex ds).num_grids = 1
    ∧ (parseIndex ds).grid_left_edge = [ds.domain_left_edge]
    ∧ (parseIndex ds).grid_right_edge = [ds.domain_right_edge]
    ∧ (parseIndex ds).grid_dimensions = [ds.domain_dimensions]
    ∧ (parseIndex ds).grid_particle_count = [0]
    ∧ (parseIndex ds).grid_levels = [1]
    ∧ (parseIndex ds).max_level = 1
    ∧ (parseIndex ds).grid_left_edge.length = (parseIndex ds).num_grids := by
  exact ⟨rfl, rfl, rfl, rfl, rfl, rfl, rfl, rfl⟩

/-- A scalar value of an ini-style companion file as parsed by `inifix`
(integers for block counts, strings for spacing modes). -/
inductive IniValue where
  | int (n : Int)
  | str (s : String)
deriving DecidableEq, BEq, Repr

/-- A parsed companion file: ordered sections, each an ordered list of
`(axis, values)` parameters. -/
def Ini : Type := List (String × List (String × List IniValue))

/-- Every third element of a list (Python `l[::3]`), used on the tail to
model `vals[3::3]`. -/
def every3 {α : Type} : List α → List α
  | [] => []
  | a :: rest => a :: every3 (rest.drop 2)
termination_by l => l.length
decreasing_by simp [List.length_drop]; omega

/-- The spacing-mode entries `vals[3::3]`. -/
def spacingModes (vals : List IniValue) : List IniValue := every3 (vals.drop 3)

/-- The message `f"found multiple blocks in direction {ax}; got {vals}"`. -/
def multiBlockMsg (ax : String) (vals : List IniValue) : String :=
  let v := reprStr vals
  s!"found multiple blocks in direction {ax}; got {v}"

/-- The message `f"found non-uniform block(s) in direction {ax}"`. -/
def nonUniformMsg (ax : String) : String :=
  s!"found non-uniform block(s) in direction {ax}"

/-- The aggregated warning text built from `msg_elems`. -/
def aggregatedMsg (elems : List String) : String :=
  "yt + yt_idefix currently only supports a single block "
    ++ "with uniform spacing in each direction. Got the following issue(s)\n"
    ++ "- " ++ String.intercalate "\n- " elems
    ++ "\nThe grid will be treated as uniformly spaced in every direction. "
    ++ "Only the domain edges are expected to be correctly parsed."

/-- The warning emitted when no companion file is supplied. -/
def cannotValidateMsg : String :=
  "Cannot validate grid structure. "
    ++ "Please pass the `inifile` keyword argument to `yt.load`"

/-- The per-axis loop of `IdefixDataset._parse_inifile`, collecting
`msg_elems`. `vals[0]` raises `IndexError` on an empty value list and
`vals[0] > 1` raises `TypeError` when `vals[0]` is a string; the
comparison `_ != "u"` never raises. -/
def checkAxes : List (String × List IniValue) → Except PyErr (List String)
  | [] => .ok []
  | (ax, vals) :: rest =>
    match vals.head? with
    | none => .error .indexError
    | some (.str _) => .error .typeError
    | some (.int n) =>
      let m1 := if 1 < n then [multiBlockMsg ax vals] else []
      let m2 := if (spacingModes vals).any (fun v => v != IniValue.str "u")
                then [nonUniformMsg ax] else []
      match checkAxes rest with
      | .error e => .error e
      | .ok ms => .ok (m1 ++ m2 ++ ms)

/-- `IdefixDataset._parse_inifile`, returning the list of warnings emitted
(one entry per `warnings.warn` call) or the exception it raises. With no
`inifile` it warns and returns early; otherwise `self.parameters["Grid"]`
raises `KeyError` when the parsed file has no `Grid` section; otherwise
the per-axis checks run and a nonempty `msg_elems` produces one aggregated
warning. -/
def parseInifile (inifile : Option Ini) : Except PyErr (List String) :=
  match inifile with
  | none => .ok [cannotValidateMsg]
  | some ini =>
    match ini.lookup "Grid" with
    | none => .error (.keyError "Grid")
    | some grid =>
      match checkAxes grid with
      | .error e => .error e
      | .ok elems => .ok (if elems.isEmpty then [] else [aggregatedMsg elems])

/-- An axis entry violates the single-uniform-block assumption: its block
count exceeds 1, or some spacing mode differs from `"u"`. -/
def offendingAxis (vals : List IniValue) : Bool :=
  (match vals.head? with
   | some (.int n) => decide (1 < n)
   | _ => false)
  || (spacingModes vals).any (fun v => v != IniValue.str "u")

lemma checkAxes_ok (grid : List (String × List IniValue))
    (hwf : ∀ p ∈ grid, ∃ n : Int, p.2.head? = some (.int n)) :
    ∃ elems, checkAxes grid = .ok elems
      ∧ (∀ p ∈ grid, offendingAxis p.2 = true →
          multiBlockMsg p.1 p.2 ∈ elems ∨ nonUniformMsg p.1 ∈ elems) := by
  induction grid with
  | nil => exact ⟨[], rfl, by simp⟩
  | cons q rest ih =>
    obtain ⟨ax, vals⟩ := q
    obtain ⟨n, hn⟩ := hwf (ax, vals) (by simp)
    obtain ⟨ms, hms, hmem⟩ := ih (fun p hp => hwf p (List.mem_cons_of_mem _ hp))
    refine ⟨(if 1 < n then [multiBlockMsg ax vals] else [])
        ++ (if (spacingModes vals).any (fun v => v != IniValue.str "u")
            then [nonUniformMsg ax] else [])
        ++ ms, ?_, ?_⟩
    · simp only [checkAxes, hn, hms]
    · intro p hp hoff
      rcases List.mem_cons.mp hp with hp | hp
      · subst hp
        simp only [offendingAxis, hn, Bool.or_eq_true] at hoff
        rcases hoff with hoff | hoff
        · left
          rw [if_pos (of_decide_eq_true hoff)]
          exact List.mem_append_left _ (List.mem_append_left _ (List.mem_singleton_self _))
        · right
          rw [if_pos hoff]
          exact List.mem_append_left _ (List.mem_append_right _ (List.mem_singleton_self _))
      · rcases hmem p hp hoff with h | h
        · left; simp [List.mem_append, h]
        · right; simp [List.mem_append, h]

/-- C8: given a supplied companion file with a `Grid` section whose axis
entries are well-formed (nonempty, integer block count), the validator
never raises; if some axis has more than one block or a non-uniform
spacing mode, exactly one aggregated warning is emitted whose elements
mention every offending axis, and parsing still succeeds; with no
companion file, validation is skipped with a single warning that the grid
structure cannot be confirmed. -/
theorem inifile_validator_spec (ini : Ini) (grid : List (String × List IniValue))
    (hg : ini.lookup "Grid" = some grid)
    (hwf : ∀ p ∈ grid, ∃ n : Int, p.2.head? = some (.int n)) :
    (∃ ws, parseInifile (some ini) = .ok ws)
    ∧ (∃ elems, checkAxes grid = .ok elems
        ∧ ((∃ p ∈ grid, offendingAxis p.2 = true) →
            parseInifile (some ini) = .ok [aggregatedMsg elems])
        ∧ (∀ p ∈ grid, offendingAxis p.2 = true →
            multiBlockMsg p.1 p.2 ∈ elems ∨ nonUniformMsg p.1 ∈ elems))
    ∧ parseInifile none = .ok [cannotValidateMsg] := by
  obtain ⟨elems, helems, hmem⟩ := checkAxes_ok grid hwf
  refine ⟨⟨if elems.isEmpty then [] else [aggregatedMsg elems], ?_⟩,
    ⟨elems, helems, ?_, hmem⟩, rfl⟩
  · simp only [parseInifile, hg, helems]
  · rintro ⟨p, hp, hoff⟩
    have hne : elems ≠ [] := by
      rcases hmem p hp hoff with h | h
      · exact List.ne_nil_of_mem h
      · exact List.ne_nil_of_mem h
    simp only [parseInifile, hg, helems, List.isEmpty_eq_true, hne, if_false]

/-- A companion file whose `Grid` section declares two blocks along `x1`
and a single uniform block along `x2`. -/
def exampleIni : Ini :=
  [("Grid",
    [("x1", [.int 2, .int 0, .int 1, .str "u", .int 1, .int 2, .str "u"]),
     ("x2", [.int 1, .int 0, .int 1, .str "u"])])]

theorem inifile_validator_spec_witness :
    ∃ ws, parseInifile (some exampleIni) = .ok ws :=
  (inifile_validator_spec exampleIni
      [("x1", [.int 2, .int 0, .int 1, .str "u", .int 1, .int 2, .str "u"]),
       ("x2", [.int 1, .int 0, .int 1, .str "u"])]
      rfl
      (by
        intro p hp
        simp only [List.mem_cons, List.not_mem_nil, or_false] at hp
        rcases hp with rfl | rfl
        · exact ⟨2, rfl⟩
        · exact ⟨1, rfl⟩)).1

/-- C10: a supplied companion file whose parsed contents have no `Grid`
section makes `_parse_inifile` raise a `KeyError` instead of warning, so
dataset loading aborts. -/
theorem missing_grid_section_raises (ini : Ini) (h : ini.lookup "Grid" = none) :
    parseInifile (some ini) = .error (.keyError "Grid") := by
  simp only [parseInifile, h]

/-- A companion file with an `Output` section but no `Grid` section. -/
def gridlessIni : Ini := [("Output", [("dmp", [.int 1])])]

theorem missing_grid_section_raises_witness :
    parseInifile (some gridlessIni) = .error (.keyError "Grid") :=
  missing_grid_section_raises gridlessIni rfl

/-- The message of the `NotImplementedError` raised by both particle read
methods of `IdefixIOHandler`. -/
def particleMsg : String := "Particles are not currently supported for Idefix"

/-- `IdefixIOHandler._read_particle_coords`: unconditionally raises
`NotImplementedError`. A success would yield the generator of
`(ptype, (x, y, z))` tuples. -/
def readParticleCoords {α β : Type} (chunks : List α) (ptf : β) :
    Except String (List (String × (Int × Int × Int))) :=
  .error particleMsg

/-- `IdefixIOHandler._read_particle_fields`: unconditionally raises
`NotImplementedError`. -/
def readParticleFields {α β γ : Type} (chunks : List α) (ptf : β) (selector : γ) :
    Except String (List ((String × String) × List Int)) :=
  .error particleMsg

/-- C9: every particle read, for any arguments, fails with the
"not supported" signal and never returns a successful (even empty)
result. -/
theorem particle_reads_unsupported {α β γ : Type} (chunks : List α) (ptf : β)
    (selector : γ) :
    readParticleCoords chunks ptf = .error particleMsg
    ∧ (∀ v, readParticleCoords chunks ptf ≠ .ok v)
    ∧ readParticleFields chunks ptf selector = .error particleMsg
    ∧ (∀ v, readParticleFields chunks ptf selector ≠ .ok v) := by
  refine ⟨rfl, ?_, rfl, ?_⟩
  · intro v h
    exact Except.noConfusion h
  · intro v h
    exact Except.noConfusion h

end YtIdefix
